import Mathlib

/-!
Shallow embedding of the nimbus build pipeline, from src/src/http_handler.rs.

The handler function_handler receives an HTTP request carrying a JSON body
with a component id and user source code, seeds a workspace under /tmp,
runs two external build tools (bun and tailwind), uploads the produced
files to object storage and answers with two public URLs.  External
effects (environment variables, filesystem operations, subprocesses,
object-storage uploads) are modelled as oracles supplied in a World
record; the embedding follows the Rust control flow line by line and
additionally records an event trace of the observable side effects the
claims talk about (workspace creation, build-tool exits, uploads,
workspace removal).
-/

/-- Request body schema, from struct RequestBody (component_id, code). -/
structure RequestBody where
  component_id : String
  code : String
deriving DecidableEq, Repr

/-- Body of an HTTP response: plain text, as built by error_response, or
the JSON object built by the json! macro on the success path, modelled as
its field list so that no serialization order is fixed. -/
inductive RespBody where
  | text (s : String)
  | jsonObj (fields : List (String × String))
deriving DecidableEq, Repr

/-- Result of one invocation of function_handler: a Rust panic, an error
propagated with the question-mark operator (surfaced by the Lambda runtime
as an invocation failure, not as an HTTP response built by the handler),
or an HTTP response built by the handler. -/
inductive Outcome where
  | panic (msg : String)
  | err (msg : String)
  | resp (status : Nat) (contentType : String) (body : RespBody)
deriving DecidableEq, Repr

/-- Observable side effects of a run, in the order they happen. -/
inductive Event where
  | wsCreated
  | bunExit (ok : Bool) (stderr : String)
  | tailwindExit (ok : Bool) (stderr : String)
  | upload (key : String)
  | wsRemoved (ok : Bool)
deriving DecidableEq, Repr

/-- Full result of a run: the outcome, the trace of side effects, and the
workspace path the handler computed (none when it never got that far). -/
structure RunResult where
  outcome : Outcome
  trace : List Event
  workspacePath : Option String
deriving DecidableEq, Repr

/-- The four environment variables read at the top of function_handler. -/
structure Env where
  s3_bucket_name : Option String
  cloudfront_domain : Option String
  aws_region : Option String
  lambda_task_root : Option String
deriving DecidableEq, Repr

/-- The request body as the handler sees it: whether the raw bytes are
valid UTF-8, and the result of the serde JSON parse of those bytes.  Lines
41 and 43 of the source parse the same bytes with the same serde parser
(from_slice on the bytes, from_str on the decoded string), so one parse
result models both call sites. -/
structure ReqBody where
  utf8 : Bool
  parse : Except String RequestBody

/-- Exit status and captured standard error of a subprocess. -/
structure CmdResult where
  success : Bool
  stderr : String
deriving DecidableEq, Repr

/-- Oracles for every external effect the handler performs, in source
order.  An Except.error models the corresponding Rust operation failing
with that error message. -/
structure World where
  cp : Except String CmdResult
  renameTemplates : Except String Unit
  mkSrcDir : Except String Unit
  mkOutDir : Except String Unit
  copyGlobals : Except String Unit
  writeComponent : Except String Unit
  writeEntry : Except String Unit
  bun : Except String CmdResult
  tailwind : Except String CmdResult
  writeHtml : Except String Unit
  readDir : Except String (List String)
  uploadFile : String → Except String Unit
  removeWorkspace : Except String Unit

/-- Does the first list start with the second list. -/
def leadsWith : List Char → List Char → Bool
  | _, [] => true
  | [], _ :: _ => false
  | a :: as, b :: bs => a = b && leadsWith as bs

/-- Does the string start with the given character. -/
def firstCharIs (s : String) (c : Char) : Bool :=
  match s.toList with
  | [] => false
  | a :: _ => a = c

/-- Does the string end with the given character. -/
def lastCharIs (s : String) (c : Char) : Bool :=
  match s.toList.getLast? with
  | some a => a = c
  | none => false

/-- Rust Path::join semantics for Unix paths: an absolute right-hand side
replaces the base, otherwise it is appended with a separator. -/
def rustPathJoin (base arg : String) : String :=
  if firstCharIs arg '/' then arg
  else if lastCharIs base '/' then base ++ arg
  else base ++ "/" ++ arg

/-- Workspace directory for a component id, from line 52 of the source:
Path::new of /tmp joined with the caller-supplied component_id, with no
validation of the id. -/
def workspace_dir_of (cid : String) : String :=
  rustPathJoin "/tmp" cid

/-- Object-storage key for one produced file, from line 208 of the
source: the component id, a slash, and the file name. -/
def s3_key_of (cid fileName : String) : String :=
  cid ++ "/" ++ fileName

/-- Content after the last occurrence of sep, none when sep is absent. -/
def afterLastChar (sep : Char) : List Char → Option (List Char)
  | [] => none
  | c :: cs =>
    match afterLastChar sep cs with
    | some r => some r
    | none => if c = sep then some cs else none

/-- Rust Path::extension semantics on a file name: none when there is no
embedded dot, none when the name starts with a dot and has no other dot,
otherwise the portion after the final dot. -/
def rustExtension (fileName : String) : Option String :=
  match fileName.toList with
  | [] => none
  | c :: cs =>
    let core := if c = '.' then cs else c :: cs
    match afterLastChar '.' core with
    | some ext => some (String.mk ext)
    | none => none

/-- The final component of a path, after the last slash. -/
def rustFileName (p : String) : String :=
  match afterLastChar '/' p.toList with
  | some r => String.mk r
  | none => p

/-- Extension of a path, computed on its file name as Rust does. -/
def pathExtension (p : String) : Option String :=
  rustExtension (rustFileName p)

/-- Media type from a file extension, from lines 244 to 249 of the
source, the match inside upload_file_to_s3. -/
def content_type (ext : Option String) : String :=
  match ext with
  | some "css" => "text/css"
  | some "js" => "application/javascript"
  | some "html" => "text/html"
  | _ => "application/octet-stream"

/-- Media type of a file path, exactly as upload_file_to_s3 computes it:
the content_type of the extension of the path. -/
def inferContentType (p : String) : String :=
  content_type (pathExtension p)

/-- Plain HTTP error response as built by error_response in the source:
the given status, a text/html content type, and the message as body. -/
def error_response (status : Nat) (message : String) : Outcome :=
  Outcome.resp status "text/html" (RespBody.text message)

/-- Upload loop from lines 204 to 213 of the source: for each file name
in dist, build the key from the component id and try the upload; on the
first failure stop with the error message, keeping the events of the
uploads already done.  Returns the upload events and an error, if any. -/
def uploadLoop (uploadFile : String → Except String Unit) (cid : String) :
    List String → List Event × Option String
  | [] => ([], none)
  | f :: fs =>
    match uploadFile f with
    | Except.error e => ([], some ("Upload failed: " ++ e))
    | Except.ok _ =>
      let rest := uploadLoop uploadFile cid fs
      (Event.upload (s3_key_of cid f) :: rest.1, rest.2)

/-- The pipeline up to (and including) the uploads, with every early
return modelled as Except.error carrying the final RunResult.  On success
it returns the component id, the cloudfront domain and the trace so far;
function_handler then builds the 200 response and attempts cleanup, which
in the source happens only on this path. -/
def pipelineCore (env : Env) (req : ReqBody) (w : World) :
    Except RunResult (String × String × List Event) :=
  match env.s3_bucket_name with
  | none => Except.error ⟨Outcome.err "S3_BUCKET_NAME not set", [], none⟩
  | some _bucket_name =>
  match env.cloudfront_domain with
  | none => Except.error ⟨Outcome.err "CLOUDFRONT_DOMAIN not set", [], none⟩
  | some cloudfront_domain =>
  match env.aws_region with
  | none => Except.error ⟨Outcome.err "AWS_REGION not set", [], none⟩
  | some _region =>
  match env.lambda_task_root with
  | none => Except.error ⟨Outcome.err "LAMBDA_TASK_ROOT not set", [], none⟩
  | some _lambda_task_root =>
  if req.utf8 = false then
    Except.error ⟨Outcome.panic "invalid utf-8", [], none⟩
  else
  match req.parse with
  | Except.error e => Except.error ⟨Outcome.err e, [], none⟩
  | Except.ok _request_body =>
  match req.parse with
  | Except.error e => Except.error ⟨error_response 400 e, [], none⟩
  | Except.ok data =>
  match w.cp with
  | Except.error e =>
    Except.error ⟨Outcome.err ("Failed to execute cp command: " ++ e), [],
      some (workspace_dir_of data.component_id)⟩
  | Except.ok cpOut =>
  if cpOut.success then
    match w.renameTemplates with
    | Except.error e =>
      Except.error ⟨error_response 500
        ("Failed to rename templates directory: " ++ e), [],
        some (workspace_dir_of data.component_id)⟩
    | Except.ok _ =>
    match w.mkSrcDir with
    | Except.error e =>
      Except.error ⟨Outcome.err ("Failed to create src directory: " ++ e),
        [Event.wsCreated], some (workspace_dir_of data.component_id)⟩
    | Except.ok _ =>
    match w.mkOutDir with
    | Except.error e =>
      Except.error ⟨Outcome.err ("Failed to create out directory: " ++ e),
        [Event.wsCreated], some (workspace_dir_of data.component_id)⟩
    | Except.ok _ =>
    match w.copyGlobals with
    | Except.error e =>
      Except.error ⟨error_response 500 ("Failed to copy globals.css: " ++ e),
        [Event.wsCreated], some (workspace_dir_of data.component_id)⟩
    | Except.ok _ =>
    match w.writeComponent with
    | Except.error e =>
      Except.error ⟨error_response 500
        ("Failed to write component file: " ++ e),
        [Event.wsCreated], some (workspace_dir_of data.component_id)⟩
    | Except.ok _ =>
    match w.writeEntry with
    | Except.error e =>
      Except.error ⟨error_response 500
        ("Failed to write component file: " ++ e),
        [Event.wsCreated], some (workspace_dir_of data.component_id)⟩
    | Except.ok _ =>
    match w.bun with
    | Except.error e =>
      Except.error ⟨Outcome.err ("Failed to execute bun build: " ++ e),
        [Event.wsCreated], some (workspace_dir_of data.component_id)⟩
    | Except.ok bunOut =>
    if bunOut.success then
      match w.tailwind with
      | Except.error e =>
        Except.error ⟨Outcome.err ("Failed to execute tailwind build: " ++ e),
          [Event.wsCreated, Event.bunExit bunOut.success bunOut.stderr],
          some (workspace_dir_of data.component_id)⟩
      | Except.ok twOut =>
      if twOut.success then
        match w.writeHtml with
        | Except.error e =>
          Except.error ⟨Outcome.err e,
            [Event.wsCreated, Event.bunExit bunOut.success bunOut.stderr,
             Event.tailwindExit twOut.success twOut.stderr],
            some (workspace_dir_of data.component_id)⟩
        | Except.ok _ =>
        match w.readDir with
        | Except.error e =>
          Except.error ⟨Outcome.err e,
            [Event.wsCreated, Event.bunExit bunOut.success bunOut.stderr,
             Event.tailwindExit twOut.success twOut.stderr],
            some (workspace_dir_of data.component_id)⟩
        | Except.ok files =>
        match (uploadLoop w.uploadFile data.component_id files).2 with
        | some msg =>
          Except.error ⟨error_response 500 msg,
            [Event.wsCreated, Event.bunExit bunOut.success bunOut.stderr,
             Event.tailwindExit twOut.success twOut.stderr] ++
              (uploadLoop w.uploadFile data.component_id files).1,
            some (workspace_dir_of data.component_id)⟩
        | none =>
          Except.ok (data.component_id, cloudfront_domain,
            [Event.wsCreated, Event.bunExit bunOut.success bunOut.stderr,
             Event.tailwindExit twOut.success twOut.stderr] ++
              (uploadLoop w.uploadFile data.component_id files).1)
      else
        Except.error ⟨error_response 500
          ("Tailwind build failed: " ++ twOut.stderr),
          [Event.wsCreated, Event.bunExit bunOut.success bunOut.stderr,
           Event.tailwindExit twOut.success twOut.stderr],
          some (workspace_dir_of data.component_id)⟩
    else
      Except.error ⟨error_response 500 ("Bun build failed: " ++ bunOut.stderr),
        [Event.wsCreated, Event.bunExit bunOut.success bunOut.stderr],
        some (workspace_dir_of data.component_id)⟩
  else
    Except.error ⟨error_response 500 ("cp command failed: " ++ cpOut.stderr),
      [], some (workspace_dir_of data.component_id)⟩

/-- The whole handler: run the pipeline; on its single success path build
the JSON response body from the component id and the cloudfront domain
and attempt workspace removal, whose failure is only logged (lines 220 to
226 of the source) and leaves the response untouched. -/
def function_handler (env : Env) (req : ReqBody) (w : World) : RunResult :=
  match pipelineCore env req w with
  | Except.error r => r
  | Except.ok (component_id, cloudfront_domain, tr) =>
    match w.removeWorkspace with
    | Except.error _ =>
      ⟨Outcome.resp 200 "application/json" (RespBody.jsonObj
        [("renderUrl",
          "https://" ++ component_id ++ ".preview.runney.cloud/index.html"),
         ("originalUrl",
          "https://" ++ cloudfront_domain ++ "/" ++ component_id ++
            "/index.html")]),
        tr ++ [Event.wsRemoved false], some (workspace_dir_of component_id)⟩
    | Except.ok _ =>
      ⟨Outcome.resp 200 "application/json" (RespBody.jsonObj
        [("renderUrl",
          "https://" ++ component_id ++ ".preview.runney.cloud/index.html"),
         ("originalUrl",
          "https://" ++ cloudfront_domain ++ "/" ++ component_id ++
            "/index.html")]),
        tr ++ [Event.wsRemoved true], some (workspace_dir_of component_id)⟩

/-- The run created the workspace directory: the rename into place at
line 78 succeeded. -/
def workspaceCreated (r : RunResult) : Prop :=
  Event.wsCreated ∈ r.trace

/-- The run removed the workspace directory successfully. -/
def workspaceRemoved (r : RunResult) : Prop :=
  Event.wsRemoved true ∈ r.trace

/-- The workspace directory exists on disk after the run: it was created
and was not successfully removed. -/
def workspaceExistsAfter (r : RunResult) : Prop :=
  workspaceCreated r ∧ ¬ workspaceRemoved r

instance (r : RunResult) : Decidable (workspaceCreated r) := by
  unfold workspaceCreated; infer_instance

instance (r : RunResult) : Decidable (workspaceRemoved r) := by
  unfold workspaceRemoved; infer_instance

instance (r : RunResult) : Decidable (workspaceExistsAfter r) := by
  unfold workspaceExistsAfter; infer_instance

/-- Is this event an upload to object storage. -/
def isUploadEvent : Event → Bool
  | Event.upload _ => true
  | _ => false

/-- The upload events of a trace. -/
def uploadEvents (tr : List Event) : List Event :=
  tr.filter isUploadEvent

/-- The outcome is the 200 success response. -/
def isSuccess200 (o : Outcome) : Bool :=
  match o with
  | Outcome.resp st _ _ => st == 200
  | _ => false

/-- No upload event occurs in the trace before both build tools have
exited successfully; the two booleans record which of bun and tailwind
have already succeeded. -/
def noUploadBeforeBuilds : List Event → Bool → Bool → Bool
  | [], _, _ => true
  | Event.upload _ :: tr, bunOk, twOk =>
    bunOk && twOk && noUploadBeforeBuilds tr bunOk twOk
  | Event.bunExit ok _ :: tr, bunOk, twOk =>
    noUploadBeforeBuilds tr (bunOk || ok) twOk
  | Event.tailwindExit ok _ :: tr, bunOk, twOk =>
    noUploadBeforeBuilds tr bunOk (twOk || ok)
  | _ :: tr, bunOk, twOk => noUploadBeforeBuilds tr bunOk twOk

/-- All four required environment variables are present. -/
def envComplete (env : Env) : Bool :=
  env.s3_bucket_name.isSome && env.cloudfront_domain.isSome &&
    env.aws_region.isSome && env.lambda_task_root.isSome

/-- Split a character list on a separator into groups. -/
def splitChars (sep : Char) : List Char → List (List Char)
  | [] => [[]]
  | c :: cs =>
    let r := splitChars sep cs
    if c = sep then [] :: r
    else
      match r with
      | [] => [[c]]
      | g :: gs => (c :: g) :: gs

/-- Components of a Unix path, split on slashes. -/
def pathComponents (p : String) : List String :=
  (splitChars '/' p.toList).map String.mk

/-- Join path components with slashes. -/
def joinWithSlash : List String → String
  | [] => ""
  | [s] => s
  | s :: rest => s ++ "/" ++ joinWithSlash rest

/-- One step of lexical path normalization over a reversed stack of kept
components: empty and dot components are dropped, dot-dot pops. -/
def normalizeStep (st : List String) (c : String) : List String :=
  if c = "" then st
  else if c = "." then st
  else if c = ".." then st.tail
  else c :: st

/-- Lexical normalization of an absolute Unix path: resolves dot and
dot-dot components. -/
def normalizePath (p : String) : String :=
  "/" ++ joinWithSlash (((pathComponents p).foldl normalizeStep []).reverse)

/-- A fully configured environment, used as a concrete test input. -/
def env0 : Env :=
  ⟨some "bucket", some "cdn.example.com", some "us-east-1", some "/var/task"⟩

/-- The environment with the bucket name missing. -/
def envNoBucket : Env :=
  ⟨none, some "cdn.example.com", some "us-east-1", some "/var/task"⟩

/-- A well-formed request with component id abc123. -/
def req0 : ReqBody :=
  ⟨true, Except.ok ⟨"abc123", "export default component"⟩⟩

/-- A request whose body is valid UTF-8 but not valid JSON for the
schema: the serde parse fails with this message. -/
def reqBadJson : ReqBody :=
  ⟨true, Except.error "expected value at line 1 column 1"⟩

/-- A request whose raw body bytes are not valid UTF-8. -/
def reqNonUtf8 : ReqBody :=
  ⟨false, Except.error "unused"⟩

/-- A world in which every external operation succeeds and dist holds the
three expected output files. -/
def okWorld : World :=
  ⟨Except.ok ⟨true, ""⟩, Except.ok (), Except.ok (), Except.ok (),
   Except.ok (), Except.ok (), Except.ok (), Except.ok ⟨true, ""⟩,
   Except.ok ⟨true, ""⟩, Except.ok (),
   Except.ok ["index.html", "index.js", "index.css"],
   fun _ => Except.ok (), Except.ok ()⟩

/-- The world in which the bun build exits nonzero with stderr boom. -/
def bunFailWorld : World :=
  { okWorld with bun := Except.ok ⟨false, "boom"⟩ }

/-- The world in which the tailwind build exits nonzero with stderr twerr. -/
def twFailWorld : World :=
  { okWorld with tailwind := Except.ok ⟨false, "twerr"⟩ }

theorem nub_nil (b t : Bool) : noUploadBeforeBuilds [] b t = true := rfl

theorem nub_wsCreated (tr : List Event) (b t : Bool) :
    noUploadBeforeBuilds (Event.wsCreated :: tr) b t =
      noUploadBeforeBuilds tr b t := rfl

theorem nub_bunExit (ok : Bool) (s : String) (tr : List Event) (b t : Bool) :
    noUploadBeforeBuilds (Event.bunExit ok s :: tr) b t =
      noUploadBeforeBuilds tr (b || ok) t := rfl

theorem nub_tailwindExit (ok : Bool) (s : String) (tr : List Event) (b t : Bool) :
    noUploadBeforeBuilds (Event.tailwindExit ok s :: tr) b t =
      noUploadBeforeBuilds tr b (t || ok) := rfl

theorem nub_upload (k : String) (tr : List Event) (b t : Bool) :
    noUploadBeforeBuilds (Event.upload k :: tr) b t =
      (b && t && noUploadBeforeBuilds tr b t) := rfl

theorem nub_wsRemoved (ok : Bool) (tr : List Event) (b t : Bool) :
    noUploadBeforeBuilds (Event.wsRemoved ok :: tr) b t =
      noUploadBeforeBuilds tr b t := rfl

/-- Every event produced by the upload loop is an upload event. -/
theorem uploadLoop_mem_upload (up : String → Except String Unit) (cid : String) :
    ∀ fs e, e ∈ (uploadLoop up cid fs).1 → ∃ k, e = Event.upload k := by
  intro fs
  induction fs with
  | nil => intro e he; simp [uploadLoop] at he
  | cons f fs ih =>
    intro e he
    unfold uploadLoop at he
    cases h : up f with
    | error msg => rw [h] at he; simp at he
    | ok u =>
      rw [h] at he
      simp only [List.mem_cons] at he
      rcases he with he | he
      · exact ⟨_, he⟩
      · exact ih e he

/-- A block of upload events does not change noUploadBeforeBuilds once
both build tools have succeeded. -/
theorem nub_all_uploads :
    ∀ (E : List Event), (∀ e ∈ E, ∃ k, e = Event.upload k) →
      ∀ tail, noUploadBeforeBuilds (E ++ tail) true true =
        noUploadBeforeBuilds tail true true := by
  intro E
  induction E with
  | nil => intro _ tail; rfl
  | cons e E ih =>
    intro hE tail
    obtain ⟨k, rfl⟩ := hE e (List.mem_cons_self e E)
    have := ih (fun x hx => hE x (List.mem_cons_of_mem _ hx)) tail
    rw [List.cons_append, nub_upload, this]
    simp

theorem nub_uploadLoop_append (up : String → Except String Unit)
    (cid : String) (fs : List String) (tail : List Event) :
    noUploadBeforeBuilds ((uploadLoop up cid fs).1 ++ tail) true true =
      noUploadBeforeBuilds tail true true :=
  nub_all_uploads _ (uploadLoop_mem_upload up cid fs) tail

theorem nub_uploadLoop_fst (up : String → Except String Unit)
    (cid : String) (fs : List String) :
    noUploadBeforeBuilds (uploadLoop up cid fs).1 true true = true := by
  have h := nub_uploadLoop_append up cid fs []
  simpa using h

/-- Inversion for the success path of the pipeline: the request was valid
UTF-8 and parsed, the cloudfront domain was configured, and the trace is
the workspace creation, the two successful build-tool exits, and the
upload events, in that order. -/
theorem pipelineCore_ok_inv (env : Env) (req : ReqBody) (w : World)
    (cid cfd : String) (tr : List Event)
    (hp : pipelineCore env req w = Except.ok (cid, cfd, tr)) :
    req.utf8 = true ∧
    (∃ data, req.parse = Except.ok data ∧ data.component_id = cid) ∧
    env.cloudfront_domain = some cfd ∧
    (∃ sb st files, w.readDir = Except.ok files ∧
      tr = Event.wsCreated :: Event.bunExit true sb ::
        Event.tailwindExit true st :: (uploadLoop w.uploadFile cid files).1) := by
  unfold pipelineCore at hp
  repeat' split at hp
  all_goals try exact Except.noConfusion hp
  simp only [Except.ok.injEq, Prod.mk.injEq] at hp
  obtain ⟨h1, h2, h3⟩ := hp
  subst h1; subst h2; subst h3
  simp_all

/-- C5: in every run of function_handler, no artifact is uploaded to
object storage before both the bundler invocation and the CSS-processor
invocation have exited with status zero; every upload event in the trace
is ordered after both successful build-tool exits. -/
theorem c5_no_upload_before_builds (env : Env) (req : ReqBody) (w : World) :
    noUploadBeforeBuilds (function_handler env req w).trace false false = true := by
  unfold function_handler
  rcases hp : pipelineCore env req w with r | ⟨cid, cfd, tr⟩
  · simp only []
    unfold pipelineCore at hp
    repeat' split at hp
    all_goals
      first
      | exact Except.noConfusion hp
      | (injection hp with hp
         subst hp
         simp_all [nub_nil, nub_wsCreated, nub_bunExit, nub_tailwindExit,
           nub_wsRemoved, nub_uploadLoop_append, nub_uploadLoop_fst])
  · obtain ⟨-, -, -, sb, st, files, hrd, htr⟩ :=
      pipelineCore_ok_inv env req w cid cfd tr hp
    subst htr
    simp only []
    cases hrw : w.removeWorkspace <;>
      simp [nub_wsCreated, nub_bunExit, nub_tailwindExit, nub_wsRemoved,
        nub_nil, nub_uploadLoop_append]

theorem bunExit_not_mem_uploadLoop (up : String → Except String Unit)
    (cid : String) (fs : List String) (ok : Bool) (s : String) :
    Event.bunExit ok s ∉ (uploadLoop up cid fs).1 := by
  intro h
  obtain ⟨k, hk⟩ := uploadLoop_mem_upload up cid fs _ h
  exact Event.noConfusion hk

theorem tailwindExit_not_mem_uploadLoop (up : String → Except String Unit)
    (cid : String) (fs : List String) (ok : Bool) (s : String) :
    Event.tailwindExit ok s ∉ (uploadLoop up cid fs).1 := by
  intro h
  obtain ⟨k, hk⟩ := uploadLoop_mem_upload up cid fs _ h
  exact Event.noConfusion hk

theorem wsRemoved_not_mem_uploadLoop (up : String → Except String Unit)
    (cid : String) (fs : List String) (ok : Bool) :
    Event.wsRemoved ok ∉ (uploadLoop up cid fs).1 := by
  intro h
  obtain ⟨k, hk⟩ := uploadLoop_mem_upload up cid fs _ h
  exact Event.noConfusion hk

/-- Inversion for every early-return of the pipeline: the outcome is
never the 200 success response, and the trace never records a successful
workspace removal. -/
theorem pipelineCore_error_inv (env : Env) (req : ReqBody) (w : World)
    (r : RunResult) (hp : pipelineCore env req w = Except.error r) :
    isSuccess200 r.outcome = false ∧ Event.wsRemoved true ∉ r.trace := by
  unfold pipelineCore at hp
  repeat' split at hp
  all_goals
    first
    | exact Except.noConfusion hp
    | (injection hp with hp
       subst hp
       refine ⟨rfl, ?_⟩
       simp [List.mem_append, wsRemoved_not_mem_uploadLoop])

/-- C8: for every run, the HTTP status and body returned by
function_handler are the same whether workspace removal succeeds or
fails; cleanup failure never changes the response. -/
theorem c8_cleanup_failure_response_unchanged (env : Env) (req : ReqBody)
    (w : World) (r1 r2 : Except String Unit) :
    (function_handler env req { w with removeWorkspace := r1 }).outcome =
      (function_handler env req { w with removeWorkspace := r2 }).outcome := by
  have h : pipelineCore env req { w with removeWorkspace := r1 } =
      pipelineCore env req { w with removeWorkspace := r2 } := rfl
  unfold function_handler
  rw [h]
  rcases hp : pipelineCore env req { w with removeWorkspace := r2 } with
    r | ⟨cid, cfd, tr⟩
  · rfl
  · cases r1 <;> cases r2 <;> rfl

/-- C1 counterexample: a run in which the bun build fails after the
workspace was created returns the 500 response while the workspace
directory still exists on disk, although removal was never attempted and
so never failed.  This falsifies the claim that the workspace does not
exist after the handler returns on every failure path. -/
theorem c1_counterexample :
    (function_handler env0 req0 bunFailWorld).outcome =
      error_response 500 "Bun build failed: boom" ∧
    workspaceExistsAfter (function_handler env0 req0 bunFailWorld) ∧
    Event.wsRemoved true ∉ (function_handler env0 req0 bunFailWorld).trace ∧
    Event.wsRemoved false ∉ (function_handler env0 req0 bunFailWorld).trace := by
  refine ⟨by decide, by decide, by decide, by decide⟩

/-- C1 amended: the workspace directory is removed only on the success
path.  After a successful run whose removal succeeds the workspace does
not exist; after any failed run, the workspace exists exactly when it had
been created, because removal is never attempted on failure paths. -/
theorem c1_cleanup_only_on_success (env : Env) (req : ReqBody) (w : World) :
    (isSuccess200 (function_handler env req w).outcome = true →
      w.removeWorkspace = Except.ok () →
      ¬ workspaceExistsAfter (function_handler env req w)) ∧
    (isSuccess200 (function_handler env req w).outcome = false →
      (workspaceExistsAfter (function_handler env req w) ↔
        workspaceCreated (function_handler env req w))) := by
  rcases hp : pipelineCore env req w with r | ⟨cid, cfd, tr⟩
  · have hinv := pipelineCore_error_inv env req w r hp
    unfold function_handler
    rw [hp]
    constructor
    · intro hs
      rw [hinv.1] at hs
      exact absurd hs (by simp)
    · intro _
      unfold workspaceExistsAfter workspaceRemoved
      simp [hinv.2]
  · unfold function_handler
    rw [hp]
    cases hrw : w.removeWorkspace with
    | error e =>
      constructor
      · intro _ hrm
        exact Except.noConfusion hrm
      · intro hs
        simp [isSuccess200] at hs
    | ok u =>
      constructor
      · intro _ _
        unfold workspaceExistsAfter workspaceRemoved
        simp
      · intro hs
        simp [isSuccess200] at hs

/-- C1 witness: on a fully successful concrete run with removal
succeeding, the workspace does not exist afterwards; on the concrete
bun-failure run the workspace exists because it had been created. -/
theorem c1_cleanup_only_on_success_witness :
    ¬ workspaceExistsAfter (function_handler env0 req0 okWorld) ∧
    (workspaceExistsAfter (function_handler env0 req0 bunFailWorld) ↔
      workspaceCreated (function_handler env0 req0 bunFailWorld)) :=
  ⟨(c1_cleanup_only_on_success env0 req0 okWorld).1 (by decide) rfl,
   (c1_cleanup_only_on_success env0 req0 bunFailWorld).2 (by decide)⟩

/-- C2: on a request whose body is valid UTF-8 but not valid JSON for
the schema, function_handler returns the parse error as a propagated Err
(the from_slice call at line 41 with the question mark), not the HTTP 400
response the match at lines 43 to 48 would build; that branch is dead
code.  No workspace is created.  This records the divergence between the
code and the claimed 400 behaviour. -/
theorem c2_malformed_json_yields_err_not_400 :
    function_handler env0 reqBadJson okWorld =
      ⟨Outcome.err "expected value at line 1 column 1", [], none⟩ ∧
    (function_handler env0 reqBadJson okWorld).outcome ≠
      error_response 400 "expected value at line 1 column 1" ∧
    ¬ workspaceCreated (function_handler env0 reqBadJson okWorld) := by
  refine ⟨by decide, by decide, by decide⟩

/-- Inversion for early returns and build-tool failures: when the trace
records a failed bun exit with a given stderr, the outcome is the bun 500
response carrying that stderr, and similarly for tailwind; in both cases
no upload event is in the trace. -/
theorem pipelineCore_error_buildExit (env : Env) (req : ReqBody) (w : World)
    (r : RunResult) (s : String)
    (hp : pipelineCore env req w = Except.error r) :
    (Event.bunExit false s ∈ r.trace →
      r.outcome = error_response 500 ("Bun build failed: " ++ s) ∧
      uploadEvents r.trace = []) ∧
    (Event.tailwindExit false s ∈ r.trace →
      r.outcome = error_response 500 ("Tailwind build failed: " ++ s) ∧
      uploadEvents r.trace = []) := by
  unfold pipelineCore at hp
  repeat' split at hp
  all_goals
    first
    | exact Except.noConfusion hp
    | (injection hp with hp
       subst hp
       constructor <;>
         (intro hmem
          simp_all [uploadEvents, isUploadEvent, List.mem_append,
            bunExit_not_mem_uploadLoop, tailwindExit_not_mem_uploadLoop]))

/-- C3: in every run in which the bundler subprocess or the CSS-processor
subprocess exits with non-zero status, function_handler returns the HTTP
500 response whose body contains the captured stderr text, and no
artifact is uploaded to object storage in that run. -/
theorem c3_build_tool_failure_500_stderr_no_upload (env : Env)
    (req : ReqBody) (w : World) (s : String) :
    (Event.bunExit false s ∈ (function_handler env req w).trace →
      (function_handler env req w).outcome =
        error_response 500 ("Bun build failed: " ++ s) ∧
      uploadEvents (function_handler env req w).trace = []) ∧
    (Event.tailwindExit false s ∈ (function_handler env req w).trace →
      (function_handler env req w).outcome =
        error_response 500 ("Tailwind build failed: " ++ s) ∧
      uploadEvents (function_handler env req w).trace = []) := by
  unfold function_handler
  rcases hp : pipelineCore env req w with r | ⟨cid, cfd, tr⟩
  · exact pipelineCore_error_buildExit env req w r s hp
  · obtain ⟨-, -, -, sb, st, files, hrd, htr⟩ :=
      pipelineCore_ok_inv env req w cid cfd tr hp
    subst htr
    cases hrw : w.removeWorkspace <;>
      constructor <;>
        (intro hmem
         exact absurd hmem (by
           simp [List.mem_append, bunExit_not_mem_uploadLoop,
             tailwindExit_not_mem_uploadLoop]))

/-- C3 witness: the concrete bun-failure and tailwind-failure runs yield
the 500 responses carrying the stderr text and upload nothing. -/
theorem c3_witness :
    ((function_handler env0 req0 bunFailWorld).outcome =
        error_response 500 ("Bun build failed: " ++ "boom") ∧
      uploadEvents (function_handler env0 req0 bunFailWorld).trace = []) ∧
    ((function_handler env0 req0 twFailWorld).outcome =
        error_response 500 ("Tailwind build failed: " ++ "twerr") ∧
      uploadEvents (function_handler env0 req0 twFailWorld).trace = []) :=
  ⟨(c3_build_tool_failure_500_stderr_no_upload env0 req0 bunFailWorld "boom").1
      (by decide),
   (c3_build_tool_failure_500_stderr_no_upload env0 req0 twFailWorld "twerr").2
      (by decide)⟩

/-- C6: whenever function_handler answers with status 200, the content
type is application/json and the body is the JSON object with exactly the
fields renderUrl and originalUrl, both embedding the componentId of the
request, with the hardcoded preview domain and the configured
distribution domain. -/
theorem c6_success_response_urls (env : Env) (req : ReqBody) (w : World)
    (cid code d : String)
    (hparse : req.parse = Except.ok ⟨cid, code⟩)
    (hdom : env.cloudfront_domain = some d) :
    ∀ ct b, (function_handler env req w).outcome = Outcome.resp 200 ct b →
      ct = "application/json" ∧
      b = RespBody.jsonObj
        [("renderUrl",
          "https://" ++ cid ++ ".preview.runney.cloud/index.html"),
         ("originalUrl", "https://" ++ d ++ "/" ++ cid ++ "/index.html")] := by
  intro ct b hout
  unfold function_handler at hout
  rcases hp : pipelineCore env req w with r | ⟨cid', cfd, tr⟩
  · rw [hp] at hout
    have hinv := pipelineCore_error_inv env req w r hp
    rw [hout] at hinv
    simp [isSuccess200] at hinv
  · obtain ⟨-, ⟨data, hdata, hcid⟩, hcfd, -⟩ :=
      pipelineCore_ok_inv env req w cid' cfd tr hp
    rw [hparse] at hdata
    injection hdata with hdata
    subst hdata
    simp only [] at hcid
    subst hcid
    rw [hdom] at hcfd
    injection hcfd with hcfd
    subst hcfd
    rw [hp] at hout
    cases hrw : w.removeWorkspace <;> rw [hrw] at hout <;>
      (injection hout with h1 h2 h3
       exact ⟨h2.symm, h3.symm⟩)

/-- C6 witness: the concrete fully successful run answers 200 with the
JSON body carrying renderUrl and originalUrl for component abc123. -/
theorem c6_success_response_urls_witness :
    "application/json" = "application/json" ∧
    RespBody.jsonObj
        [("renderUrl", "https://abc123.preview.runney.cloud/index.html"),
         ("originalUrl", "https://cdn.example.com/abc123/index.html")] =
      RespBody.jsonObj
        [("renderUrl",
          "https://" ++ "abc123" ++ ".preview.runney.cloud/index.html"),
         ("originalUrl",
          "https://" ++ "cdn.example.com" ++ "/" ++ "abc123" ++
            "/index.html")] :=
  c6_success_response_urls env0 req0 okWorld "abc123"
    "export default component" "cdn.example.com" rfl rfl
    "application/json"
    (RespBody.jsonObj
      [("renderUrl", "https://abc123.preview.runney.cloud/index.html"),
       ("originalUrl", "https://cdn.example.com/abc123/index.html")])
    (by decide)

/-- An environment with the cloudfront domain missing. -/
def envNoCdn : Env :=
  ⟨some "bucket", none, some "us-east-1", some "/var/task"⟩

/-- C7 counterexample: with the bucket name missing, the handler itself
fails the request with an Err naming the missing variable: the missing
configuration is checked inside function_handler on each invocation, so
it is surfaced per request by the handler, not as a startup-fatal
condition outside it. -/
theorem c7_counterexample :
    function_handler envNoBucket req0 okWorld =
      ⟨Outcome.err "S3_BUCKET_NAME not set", [], none⟩ := by
  decide

/-- C7 amended: a missing required configuration value makes every
invocation of function_handler fail, before any request processing, with
an Err naming the first missing variable in check order; the check runs
per request inside the handler rather than once at startup, and the
failure is a propagated handler error, not an HTTP response built by the
handler. -/
theorem c7_missing_config_per_request_err (env : Env) (req : ReqBody)
    (w : World) :
    (env.s3_bucket_name = none →
      function_handler env req w =
        ⟨Outcome.err "S3_BUCKET_NAME not set", [], none⟩) ∧
    (∀ bk, env.s3_bucket_name = some bk → env.cloudfront_domain = none →
      function_handler env req w =
        ⟨Outcome.err "CLOUDFRONT_DOMAIN not set", [], none⟩) ∧
    (∀ bk c, env.s3_bucket_name = some bk → env.cloudfront_domain = some c →
      env.aws_region = none →
      function_handler env req w =
        ⟨Outcome.err "AWS_REGION not set", [], none⟩) ∧
    (∀ bk c rg, env.s3_bucket_name = some bk →
      env.cloudfront_domain = some c → env.aws_region = some rg →
      env.lambda_task_root = none →
      function_handler env req w =
        ⟨Outcome.err "LAMBDA_TASK_ROOT not set", [], none⟩) := by
  refine ⟨?_, ?_, ?_, ?_⟩
  · intro h1
    simp [function_handler, pipelineCore, h1]
  · intro bk h1 h2
    simp [function_handler, pipelineCore, h1, h2]
  · intro bk c h1 h2 h3
    simp [function_handler, pipelineCore, h1, h2, h3]
  · intro bk c rg h1 h2 h3 h4
    simp [function_handler, pipelineCore, h1, h2, h3, h4]

/-- C7 witness: with the cloudfront domain missing and everything else
present, the concrete run fails with the corresponding Err. -/
theorem c7_missing_config_per_request_err_witness :
    function_handler envNoCdn req0 okWorld =
      ⟨Outcome.err "CLOUDFRONT_DOMAIN not set", [], none⟩ :=
  (c7_missing_config_per_request_err envNoCdn req0 okWorld).2.1 "bucket"
    rfl rfl

/-- C9: under a complete configuration, every request whose body is not
valid UTF-8 makes function_handler panic at the expect call on
str::from_utf8, before parsing and before any side effect, producing
neither an HTTP 400 nor an HTTP 500 response nor any other response. -/
theorem c9_non_utf8_panics (env : Env) (req : ReqBody) (w : World)
    (henv : envComplete env = true) (hutf : req.utf8 = false) :
    function_handler env req w =
      ⟨Outcome.panic "invalid utf-8", [], none⟩ ∧
    ∀ st ct b, (function_handler env req w).outcome ≠ Outcome.resp st ct b := by
  simp only [envComplete, Bool.and_eq_true, Option.isSome_iff_exists] at henv
  obtain ⟨⟨⟨⟨bk, hbk⟩, c, hc⟩, rg, hrg⟩, rt, hrt⟩ := henv
  constructor
  · simp [function_handler, pipelineCore, hbk, hc, hrg, hrt, hutf]
  · intro st ct b
    simp [function_handler, pipelineCore, hbk, hc, hrg, hrt, hutf]

/-- C9 witness: the concrete non-UTF-8 request under the complete
configuration panics and responds with nothing. -/
theorem c9_non_utf8_panics_witness :
    function_handler env0 reqNonUtf8 okWorld =
      ⟨Outcome.panic "invalid utf-8", [], none⟩ :=
  (c9_non_utf8_panics env0 reqNonUtf8 okWorld (by decide) rfl).1

/-- C10: the workspace path is the literal Path::join of /tmp with the
caller-supplied component_id, for every component_id, with no validation:
an absolute id replaces /tmp entirely, a dot-dot id escapes /tmp after
normalization, and the storage key prefix embeds the id verbatim,
separators included. -/
theorem c10_workspace_path_unvalidated (env : Env) (req : ReqBody)
    (w : World) (cid code : String)
    (henv : envComplete env = true) (hutf : req.utf8 = true)
    (hparse : req.parse = Except.ok ⟨cid, code⟩) :
    (function_handler env req w).workspacePath =
      some (workspace_dir_of cid) ∧
    workspace_dir_of "/etc/nimbus" = "/etc/nimbus" ∧
    normalizePath (workspace_dir_of "../evil") = "/evil" ∧
    leadsWith (normalizePath (workspace_dir_of "../evil")).toList
      "/tmp/".toList = false ∧
    s3_key_of "../evil" "index.html" = "../evil/index.html" := by
  refine ⟨?_, by decide, by decide, by decide, by decide⟩
  simp only [envComplete, Bool.and_eq_true, Option.isSome_iff_exists] at henv
  obtain ⟨⟨⟨⟨bk, hbk⟩, c, hc⟩, rg, hrg⟩, rt, hrt⟩ := henv
  unfold function_handler
  rcases hp : pipelineCore env req w with r | ⟨cid', cfd, tr⟩
  · simp only []
    unfold pipelineCore at hp
    repeat' split at hp
    all_goals
      first
      | exact Except.noConfusion hp
      | (injection hp with hp
         subst hp
         simp_all)
  · obtain ⟨-, ⟨data, hdata, hcid⟩, -, -⟩ :=
      pipelineCore_ok_inv env req w cid' cfd tr hp
    rw [hparse] at hdata
    injection hdata with hdata
    subst hdata
    simp only [] at hcid
    subst hcid
    cases hrw : w.removeWorkspace <;> simp

/-- C10 witness: the concrete successful run for component abc123 uses
workspace path /tmp/abc123, and the concrete escape instances hold. -/
theorem c10_workspace_path_unvalidated_witness :
    (function_handler env0 req0 okWorld).workspacePath =
      some (workspace_dir_of "abc123") ∧
    workspace_dir_of "/etc/nimbus" = "/etc/nimbus" ∧
    normalizePath (workspace_dir_of "../evil") = "/evil" ∧
    leadsWith (normalizePath (workspace_dir_of "../evil")).toList
      "/tmp/".toList = false ∧
    s3_key_of "../evil" "index.html" = "../evil/index.html" :=
  c10_workspace_path_unvalidated env0 req0 okWorld "abc123"
    "export default component" (by decide) rfl rfl

/-- C4: media-type inference is a pure deterministic function of the
file-name extension alone: extension css yields text/css, js yields
application/javascript, html yields text/html, and any other extension or
none yields the generic binary type; equal extensions always yield equal
media types. -/
theorem c4_content_type_pure_of_extension (p : String) :
    (pathExtension p = some "css" → inferContentType p = "text/css") ∧
    (pathExtension p = some "js" →
      inferContentType p = "application/javascript") ∧
    (pathExtension p = some "html" → inferContentType p = "text/html") ∧
    (pathExtension p ≠ some "css" → pathExtension p ≠ some "js" →
      pathExtension p ≠ some "html" →
      inferContentType p = "application/octet-stream") ∧
    (∀ q, pathExtension p = pathExtension q →
      inferContentType p = inferContentType q) := by
  refine ⟨?_, ?_, ?_, ?_, ?_⟩
  · intro h; unfold inferContentType; rw [h]; decide
  · intro h; unfold inferContentType; rw [h]; decide
  · intro h; unfold inferContentType; rw [h]; decide
  · intro h1 h2 h3
    unfold inferContentType
    rcases he : pathExtension p with _ | s
    · rfl
    · rw [he] at h1 h2 h3
      unfold content_type
      split <;> simp_all
  · intro q hq
    unfold inferContentType
    rw [hq]

/-- C4 witness: concrete evaluations of the inference function on the
three known extensions, on unknown and absent extensions, and on two
paths sharing an extension. -/
theorem c4_content_type_pure_of_extension_witness :
    inferContentType "index.css" = "text/css" ∧
    inferContentType "dist/index.js" = "application/javascript" ∧
    inferContentType "index.html" = "text/html" ∧
    inferContentType "notes.txt" = "application/octet-stream" ∧
    inferContentType "README" = "application/octet-stream" ∧
    inferContentType "a/b/x.css" = inferContentType "y.css" :=
  ⟨(c4_content_type_pure_of_extension "index.css").1 (by decide),
   (c4_content_type_pure_of_extension "dist/index.js").2.1 (by decide),
   (c4_content_type_pure_of_extension "index.html").2.2.1 (by decide),
   (c4_content_type_pure_of_extension "notes.txt").2.2.2.1 (by decide)
     (by decide) (by decide),
   (c4_content_type_pure_of_extension "README").2.2.2.1 (by decide)
     (by decide) (by decide),
   (c4_content_type_pure_of_extension "a/b/x.css").2.2.2.2 "y.css"
     (by decide)⟩
